import Mathlib

/-!
Shallow embedding of `src/logo/create_pysal_logo.py` (package `logo`).

The module under verification assembles a TeX/TikZ document as a string,
writes it to `<fname>.tex`, invokes an external TeX engine, deletes
intermediate files with a `find … -delete` call, optionally moves the
surviving files whose names start with the base name into a destination
directory, and derives favicons by re-running the pipeline under the
base name `<fname>_favicon` followed by an ImageMagick `convert` call and
a second cleanup pass.

Filesystem state is modelled as the list of file names in the working
directory plus the list of file names in the (single) move destination.
External processes are modelled by their argument vectors plus their
effect on the file lists; the TeX engine's output files are supplied as
a `produced` parameter, and its exit status as an `exitCode` parameter
which — exactly as in the source, where the value of `.wait()` is
discarded — is never read.

The modules `logo.predefined` and `logo.build_tex_file` are imported by
the source file but are not present in the repository snapshot; the
constants and template functions taken from them are modelled from the
specification and are marked as such in their doc comments.
-/

namespace Logo

/-- A defined color: a (color name, color code) pair, as in the tuples
`("name", "r, g, b")` the source passes around. -/
structure ColorDef where
  name : String
  code : String
  deriving Repr, DecidableEq

/-- One row of the `node_info` array: a color pair and the node text. -/
structure NodeInfo where
  color : ColorDef
  text : String
  deriving Repr, DecidableEq

/-- Modelled from the spec: `logo.predefined.CHILD_NODES` is not under
`src/`; per the spec, exactly seven node descriptors are required for
the top-level node set, and the source's error message hard-codes 7. -/
def CHILD_NODES : Nat := 7

/-- Modelled from the spec: `logo.predefined.GRANDCHILD_NODES` is not
under `src/`; each child node implicitly carries a fixed number of
grandchild leaves. The exact value is not given by the spec and no
claim depends on it. -/
def GRANDCHILD_NODES : Nat := 3

/-- Concatenation of a list of strings, left to right. -/
def joinStrings : List String → String
  | [] => ""
  | s :: rest => s ++ joinStrings rest

/-- Modelled from the spec: `build_tex_file.set_header_and_footer` is
not under `src/`. Per the spec the header carries the document class,
the conversion options, the font setup and one color definition per
supplied color, and the footer closes the document. -/
def set_header_and_footer (font : String) (convert_tikz : String)
    (defined_colors : List ColorDef) (color_format : String) : String × String :=
  ("documentclass tikz border convert " ++ convert_tikz
      ++ " fontspec setmainfont " ++ font ++ " "
      ++ joinStrings (defined_colors.map
            (fun c => "definecolor " ++ c.name ++ " " ++ color_format ++ " " ++ c.code ++ " "))
      ++ "begin document ",
   "end document")

/-- Modelled from the spec: `build_tex_file.level_distances_and_sibling_angles`
is not under `src/`; it derives level-distance and sibling-angle settings
from the child and grandchild counts. -/
def level_distances_and_sibling_angles (children grandchildren : Nat) : String :=
  "level distance sibling angle " ++ toString children ++ " " ++ toString grandchildren ++ " "

/-- Modelled from the spec: `build_tex_file.initialize_tikz` is not under
`src/`; it opens the TikZ mindmap picture with the background, concept
and text color names and the distance/angle settings. -/
def initialize_tikz (bg cc tc : String) (lds : String) : String :=
  "begin tikzpicture mindmap background " ++ bg ++ " concept color " ++ cc
    ++ " text " ++ tc ++ " " ++ lds

/-- Modelled from the spec: `build_tex_file.create_concept` is not under
`src/`; it renders the root (concept) node with its color, label text,
font style and font size. -/
def create_concept (cc concept_text concept_font_style concept_font_size : String) : String :=
  "node concept " ++ cc ++ " font " ++ concept_font_style ++ " "
    ++ concept_font_size ++ " text " ++ concept_text ++ " "

/-- Modelled from the spec: `build_tex_file.create_child` is not under
`src/`; it renders one child declaration with its color name, its label
text and its grandchild leaves. -/
def create_child (color : String) (grandchildren : Nat) (text : String) : String :=
  "child concept color " ++ color ++ " node " ++ text ++ " leaves "
    ++ toString grandchildren ++ " "

/-- Modelled from the spec: `build_tex_file.finalize_tikz` is not under
`src/`; it closes the TikZ picture. -/
def finalize_tikz : String := "end tikzpicture "

/-- Default of `convert_tikz` in the source:
`r",convert={outfile=\jobname.png}"`. -/
def default_convert_tikz : String := ",convert=\x7boutfile=\\jobname.png\x7d"

/-- The colors defined for the document, in source order
(`list(node_info[:, 0]) + non_node_colors`, lines 147-151). The three
non-node colors are modelled as required arguments: in the source their
defaults are `None`, but a `None` value crashes at `background_color[0]`
before the pipeline completes, so every completing call supplies all
three (a non-empty tuple is always truthy, so the truthiness filter on
lines 148-150 keeps each supplied color). -/
def defined_colors (node_info : List NodeInfo) (bg cc tc : ColorDef) : List ColorDef :=
  node_info.map (fun n => n.color) ++ [bg, cc, tc]

/-- The per-node child declarations, in caller-supplied order
(the loop on source lines 177-178). -/
def childDecls (node_info : List NodeInfo) : List String :=
  node_info.map (fun n => create_child n.color.name GRANDCHILD_NODES n.text)

/-- The full `.tex` file content assembled by `create_logo`
(source lines 147-184): `tex_header + tex_content + tex_footer`, where
`tex_content` is the preamble, then the concept node, then one child
declaration per node descriptor in input order, then the finalizer. -/
def fcontent (node_info : List NodeInfo) (color_format : String) (bg cc tc : ColorDef)
    (concept_text concept_font_style concept_font_size font convert_tikz : String) : String :=
  let hf := set_header_and_footer font convert_tikz (defined_colors node_info bg cc tc) color_format
  let lds := level_distances_and_sibling_angles CHILD_NODES GRANDCHILD_NODES
  let c0 := initialize_tikz bg.name cc.name tc.name lds
  let c1 := c0 ++ create_concept cc.name concept_text concept_font_style concept_font_size
  let c2 := node_info.foldl
    (fun acc n => acc ++ create_child n.color.name GRANDCHILD_NODES n.text) c1
  let c3 := c2 ++ finalize_tikz
  hf.1 ++ c3 ++ hf.2

/-- Boolean test whether `pre` is a prefix of `s` (Python `str.startswith`). -/
def strStartsWith (s pre : String) : Bool :=
  pre.data.isPrefixOf s.data

/-- Boolean test whether `post` is a suffix of `s`. -/
def strEndsWith (s post : String) : Bool :=
  post.data.isSuffixOf s.data

/-- Whether the cleanup `find` call deletes file `f`: the source builds
the anchored extended regex `.*\.(e1|e2|…)` from the extension list
(lines 201-202), and BSD `find -E … -regex` matches it against the whole
path, so a file is deleted exactly when its name ends in a dot followed
by one of the listed extensions. -/
def extDeletes (clean_up : List String) (f : String) : Bool :=
  clean_up.any (fun e => strEndsWith f ("." ++ e))

/-- Whether the favicon cleanup `find -name "<fname>.*" -delete` call
(source lines 304-305) deletes file `f`: the glob `<fname>.*` matches
exactly the names that start with `<fname>` followed by a literal dot. -/
def globDeletes (fname f : String) : Bool :=
  strStartsWith f (fname ++ ".")

/-- Filesystem state: file names in the working directory and file names
in the move destination directory. -/
structure FS where
  cwd : List String
  dest : List String
  deriving Repr, DecidableEq

/-- Add a file name to a directory listing (no duplicate entries:
creating or renaming onto an existing name replaces it). -/
def addFile (l : List String) (f : String) : List String :=
  if f ∈ l then l else l ++ [f]

/-- Add several file names to a directory listing. -/
def addFiles (l : List String) (fs : List String) : List String :=
  fs.foldl addFile l

/-- Name of the TeX source file written for base name `fname`. -/
def texName (fname : String) : String := fname ++ ".tex"

/-- Argument vector of the TeX engine call (source lines 193-197):
always exactly three entries, the second being `--shell-escape` when
`convert_tikz` is non-empty and `convert_tikz` itself (the empty string)
otherwise. -/
def renderArgv (engine convert_tikz fname : String) : List String :=
  [engine, if convert_tikz = "" then convert_tikz else "--shell-escape", texName fname]

/-- Argument vector of the cleanup `find` call (source lines 201-202). -/
def findArgv (clean_up : List String) : List String :=
  ["find", "-E", ".", "-type", "f", "-maxdepth", "1", "-regex",
    ".*\\.(" ++ String.intercalate "|" clean_up ++ ")", "-delete"]

/-- State after writing the `.tex` file and running the engine, which
creates the `produced` files in the working directory. -/
def renderedFS (fname : String) (produced : List String) (fs : FS) : FS :=
  { fs with cwd := addFiles (addFile fs.cwd (texName fname)) produced }

/-- State after the cleanup step (source lines 200-203): when the
extension list is non-empty (Python truthiness of the list), every file
whose extension is listed is deleted; nothing else changes. -/
def cleanedFS (clean_up : List String) (fs : FS) : FS :=
  if clean_up = [] then fs
  else { fs with cwd := fs.cwd.filter (fun f => !(extDeletes clean_up f)) }

/-- Whether a path string contains a path separator. -/
def hasSlash (s : String) : Bool := s.data.contains '/'

/-- The move step (source lines 206-209 and 309-312): every file listed
in the working directory whose name starts with `fname` is renamed to
the target `currdir + "/" + move_to + name` — the source inserts no
separator after `move_to`, so the target, relative to the working
directory, is the concatenation `move_to ++ name`. When `move_to`
contains a path separator that target lies outside the working
directory and the file leaves it (its relative path is recorded in
`dest`); otherwise the target is again a direct entry of the working
directory and the file is merely renamed in place to `move_to ++ name`.
Only a `move_to` ending in a separator places the files, names
preserved, in the directory it names. -/
def moveStep (fname move_to : String) (fs : FS) : FS :=
  let moved := (fs.cwd.filter (fun f => strStartsWith f fname)).map (fun f => move_to ++ f)
  let stay := fs.cwd.filter (fun f => !(strStartsWith f fname))
  if hasSlash move_to then { cwd := stay, dest := addFiles fs.dest moved }
  else { cwd := addFiles stay moved, dest := fs.dest }

/-- Outcome of one `create_logo` run: the raised error if any, the final
filesystem state, the argument vectors of the external processes
invoked, and the files written with their content. -/
structure LogoOutcome where
  error : Option String
  fs : FS
  procs : List (List String)
  texWritten : List (String × String)
  deriving Repr, DecidableEq

/-- The validation error message (source lines 144-145):
`"There must be 7 elements in the logo, %s were passed in." % len(node_info)`. -/
def countErrMsg (n : Nat) : String :=
  "There must be 7 elements in the logo, " ++ toString n ++ " were passed in."

/-- `create_logo` (source lines 53-209). `move_to` models the Python
argument, with the empty string standing for every falsy value (`None`
or `""`); `produced` is the set of files the engine run creates, and
`exitCode` is the engine's exit status, whose value — as in the source,
where `Popen(...).wait()`'s result is discarded — is never read. -/
def create_logo (fname : String) (node_info : List NodeInfo) (color_format : String)
    (background_color concept_color text_color : ColorDef) (move_to : String)
    (concept_text concept_font_style concept_font_size font engine convert_tikz : String)
    (clean_up : List String) (produced : List String) (exitCode : Int) (fs : FS) :
    LogoOutcome :=
  if node_info.length ≠ CHILD_NODES then
    { error := some (countErrMsg node_info.length), fs := fs, procs := [], texWritten := [] }
  else
    let fc := fcontent node_info color_format background_color concept_color text_color
      concept_text concept_font_style concept_font_size font convert_tikz
    let _ignored : Int := exitCode
    let fs2 := renderedFS fname produced fs
    let fs3 := cleanedFS clean_up fs2
    let fs4 := if move_to = "" then fs3 else moveStep fname move_to fs3
    { error := none,
      fs := fs4,
      procs := [renderArgv engine convert_tikz fname]
        ++ (if clean_up = [] then [] else [findArgv clean_up]),
      texWritten := [(texName fname, fc)] }

/-- The derived favicon base name `"%s_%s" % (fname, favicon)` with
`favicon = "favicon"` (source lines 263-264). -/
def derivedName (fname : String) : String := fname ++ "_" ++ "favicon"

/-- Name of the icon file `"%s_%s.ico" % (fname, resolution)`
(source line 297). -/
def icoName (fname : String) (resolution : Nat) : String :=
  fname ++ "_" ++ toString resolution ++ ".ico"

/-- Argument vector of the ImageMagick `convert` call
(source lines 279-299); its input file is `<fname>.png`, a path
resolved in the current working directory. -/
def convertArgv (fname : String) (resolution : Nat) : List String :=
  ["convert", fname ++ ".png", "-background", "white", "-clone", "0",
    "-resize", toString resolution ++ "x" ++ toString resolution,
    "-extent", toString resolution ++ "x" ++ toString resolution,
    "-delete", "0", "-alpha", "off", "-colors", "256", icoName fname resolution]

/-- Argument vector of the favicon cleanup `find` call
(source lines 304-305). -/
def favFindArgv (fname : String) : List String :=
  ["find", ".", "-type", "f", "-maxdepth", "1", "-name", fname ++ ".*", "-delete"]

/-- Effect of the `convert` call: when its input file `<fname>.png` is
present in the working directory it creates the icon file there; when
the input is absent the conversion fails (its exit status, again, is
not inspected) and no file is created. -/
def convertFS (fname : String) (resolution : Nat) (fs : FS) : FS :=
  if (fname ++ ".png") ∈ fs.cwd then { fs with cwd := addFile fs.cwd (icoName fname resolution) }
  else fs

/-- State after the favicon cleanup pass (source lines 303-306). -/
def favCleanedFS (fname : String) (fs : FS) : FS :=
  { fs with cwd := fs.cwd.filter (fun f => !(globDeletes fname f)) }

/-- `create_favicon` (source lines 212-312). It derives the base name
`fname + "_favicon"`, runs `create_logo` on it — forwarding `move_to`
and `concept_text` unchanged and leaving every other `create_logo`
parameter at its default — then runs the `convert` call, its own
cleanup pass when `clean_up` is true, and its own move step. A
validation error raised inside `create_logo` propagates and stops the
pipeline before any favicon step runs. -/
def create_favicon (fname : String) (node_info : List NodeInfo) (color_format : String)
    (background_color concept_color text_color : ColorDef) (move_to : String)
    (concept_text : String) (resolution : Nat) (clean_up : Bool)
    (produced : List String) (exitCode : Int) (fs : FS) : LogoOutcome :=
  let fname2 := derivedName fname
  let inner := create_logo fname2 node_info color_format background_color concept_color
    text_color move_to concept_text "bfseries" "large" "M+ 1mn" "lualatex"
    default_convert_tikz ["aux", "log", "pdf"] produced exitCode fs
  match inner.error with
  | some e => { error := some e, fs := inner.fs, procs := inner.procs,
                texWritten := inner.texWritten }
  | none =>
    let fs2 := convertFS fname2 resolution inner.fs
    let fs3 := if clean_up then favCleanedFS fname2 fs2 else fs2
    let fs4 := if move_to = "" then fs3 else moveStep fname2 move_to fs3
    { error := none,
      fs := fs4,
      procs := inner.procs ++ [convertArgv fname2 resolution]
        ++ (if clean_up then [favFindArgv fname2] else []),
      texWritten := inner.texWritten }

/-- The four artifact files the spec describes the engine run creating
for base name `f` (source, log, compiled output, image conversion). -/
def stdProduced (f : String) : List String :=
  [f ++ ".aux", f ++ ".log", f ++ ".pdf", f ++ ".png"]

/-- Sample node descriptors for concrete evaluations: seven entries as
the traditional theme supplies. -/
def sampleNodes : List NodeInfo :=
  [⟨⟨"c1", "1, 0, 0"⟩, "t1"⟩, ⟨⟨"c2", "0, 1, 0"⟩, "t2"⟩, ⟨⟨"c3", "0, 0, 1"⟩, "t3"⟩,
   ⟨⟨"c4", "1, 1, 0"⟩, "t4"⟩, ⟨⟨"c5", "1, 0, 1"⟩, "t5"⟩, ⟨⟨"c6", "0, 1, 1"⟩, "t6"⟩,
   ⟨⟨"c7", "2, 2, 2"⟩, "t7"⟩]

/-- Sample background color. -/
def sBG : ColorDef := ⟨"bgwhite", "255, 255, 255"⟩

/-- Sample concept color. -/
def sCC : ColorDef := ⟨"concgray", "128, 128, 128"⟩

/-- Sample text color. -/
def sTC : ColorDef := ⟨"txtblack", "0, 0, 0"⟩

/-- The string `pat` occurs somewhere inside `s`. -/
def strContains (s pat : String) : Prop := pat.data <:+: s.data

instance instDecStrContains (s pat : String) : Decidable (strContains s pat) :=
  List.decidableInfix pat.data s.data

theorem strStartsWith_iff {s pre : String} :
    strStartsWith s pre = true ↔ pre.data <+: s.data := by
  simp [strStartsWith]

theorem strEndsWith_iff {s post : String} :
    strEndsWith s post = true ↔ post.data <:+ s.data := by
  simp [strEndsWith]

theorem strStartsWith_append_self (a b : String) : strStartsWith (a ++ b) a = true := by
  simp [strStartsWith, String.data_append]

theorem strStartsWith_append_cancel (x s p : String) :
    strStartsWith (x ++ s) (x ++ p) = strStartsWith s p := by
  rw [Bool.eq_iff_iff]
  simp [strStartsWith, String.data_append, List.prefix_append_right_inj]

theorem suffix_of_suffix_append {α : Type} {t x u : List α} (h : t <:+ x ++ u)
    (hl : t.length ≤ u.length) : t <:+ u := by
  obtain ⟨p, hp⟩ := h
  have hlen : p.length + t.length = x.length + u.length := by
    have h2 := congrArg List.length hp
    simpa using h2
  have hx : x.length ≤ p.length := by omega
  refine ⟨p.drop x.length, ?_⟩
  have h1 : (x ++ u).drop x.length = u := List.drop_left x u
  have h2 : (p ++ t).drop x.length = p.drop x.length ++ t := by
    rw [List.drop_append_eq_append_drop, Nat.sub_eq_zero_of_le hx, List.drop_zero]
  rw [← h2, hp, h1]

theorem strEndsWith_append (x s e : String) (hl : e.data.length ≤ s.data.length) :
    strEndsWith (x ++ s) e = strEndsWith s e := by
  rw [Bool.eq_iff_iff]
  simp only [strEndsWith, List.isSuffixOf_iff_suffix, String.data_append]
  exact ⟨fun h => suffix_of_suffix_append h hl,
    fun h => h.trans (List.suffix_append x.data s.data)⟩

theorem string_append_right_inj {a b c : String} : a ++ b = a ++ c ↔ b = c := by
  constructor
  · intro h
    apply String.ext
    have h2 := congrArg String.data h
    simp only [String.data_append] at h2
    exact List.append_cancel_left h2
  · intro h
    rw [h]

theorem mem_addFile {l : List String} {f g : String} :
    g ∈ addFile l f ↔ g ∈ l ∨ g = f := by
  unfold addFile
  split
  · rename_i hf
    constructor
    · exact fun h => Or.inl h
    · rintro (h | rfl)
      · exact h
      · exact hf
  · simp

theorem addFile_of_not_mem {l : List String} {f : String} (h : f ∉ l) :
    addFile l f = l ++ [f] := by
  simp [addFile, h]

theorem mem_addFiles {fs : List String} {l : List String} {g : String} :
    g ∈ addFiles l fs ↔ g ∈ l ∨ g ∈ fs := by
  induction fs generalizing l with
  | nil => simp [addFiles]
  | cons f rest ih =>
    show g ∈ addFiles (addFile l f) rest ↔ _
    rw [ih, mem_addFile]
    simp only [List.mem_cons]
    tauto

theorem strContains_append_left {s : String} {x : String} (t : String)
    (h : strContains s x) : strContains (s ++ t) x := by
  unfold strContains at *
  rw [String.data_append]
  exact h.trans ⟨[], t.data, by simp⟩

theorem strContains_append_right {t : String} {x : String} (s : String)
    (h : strContains t x) : strContains (s ++ t) x := by
  unfold strContains at *
  rw [String.data_append]
  exact h.trans (List.suffix_append s.data t.data).isInfix

theorem strContains_mid (a x b : String) : strContains (a ++ x ++ b) x := by
  unfold strContains
  simp only [String.data_append]
  exact List.infix_append a.data x.data b.data

theorem strContains_refl (x : String) : strContains x x :=
  List.infix_refl x.data

theorem strContains_joinStrings {l : List String} {s : String} (h : s ∈ l) (x : String)
    (hx : strContains s x) : strContains (joinStrings l) x := by
  induction l with
  | nil => cases h
  | cons a rest ih =>
    rcases List.mem_cons.mp h with rfl | h2
    · exact strContains_append_left _ hx
    · exact strContains_append_right _ (ih h2)

theorem foldl_append_eq_join {α : Type} (g : α → String) (l : List α) (a : String) :
    l.foldl (fun acc n => acc ++ g n) a = a ++ joinStrings (l.map g) := by
  induction l generalizing a with
  | nil => simp [joinStrings]
  | cons x xs ih =>
    simp only [List.foldl_cons, List.map_cons, joinStrings, ih, String.append_assoc]

theorem append_ne_empty_left {a : String} (b : String) (h : a ≠ "") : a ++ b ≠ "" := by
  intro he
  apply h
  have h2 := congrArg String.data he
  simp only [String.data_append] at h2
  exact String.ext (by rw [(List.append_eq_nil.mp h2).1])

/-- A sample node list with fewer than the required seven descriptors. -/
def shortNodes : List NodeInfo := [⟨⟨"c1", "1, 0, 0"⟩, "t1"⟩]

/-- Claim C2: for every `node_info` argument whose element count is not
exactly 7 (the required constant `CHILD_NODES`), `create_logo` fails
with a runtime error whose message reports the actual count that was
supplied; for a count of exactly 7 no such error is raised. The second
conjunct makes explicit that the message contains the rendering of the
actual count. -/
theorem c2_count_validation (fname : String) (node_info : List NodeInfo)
    (color_format : String) (bg cc tc : ColorDef) (move_to : String)
    (concept_text cfstyle cfsize font engine convert_tikz : String)
    (clean_up produced : List String) (exitCode : Int) (fs : FS) :
    ((create_logo fname node_info color_format bg cc tc move_to concept_text cfstyle
        cfsize font engine convert_tikz clean_up produced exitCode fs).error
      = if node_info.length = CHILD_NODES then none
        else some (countErrMsg node_info.length))
    ∧ strContains (countErrMsg node_info.length) (toString node_info.length) := by
  constructor
  · by_cases h : node_info.length = CHILD_NODES <;> simp [create_logo, h]
  · exact strContains_mid "There must be 7 elements in the logo, "
      (toString node_info.length) " were passed in."

/-- Claim C3: the exit status of the external TeX engine process is not
inspected: the outcome of `create_logo` is identical for any two exit
codes, and in every valid run it proceeds to the cleanup step (the
`find` call is in the process trace whenever the cleanup list is
non-empty) and to the move step, regardless of the exit code. -/
theorem c3_exit_status_ignored (fname : String) (node_info : List NodeInfo)
    (color_format : String) (bg cc tc : ColorDef) (move_to : String)
    (concept_text cfstyle cfsize font engine convert_tikz : String)
    (clean_up produced : List String) (c1 c2 : Int) (fs : FS) :
    (create_logo fname node_info color_format bg cc tc move_to concept_text cfstyle
        cfsize font engine convert_tikz clean_up produced c1 fs
      = create_logo fname node_info color_format bg cc tc move_to concept_text cfstyle
        cfsize font engine convert_tikz clean_up produced c2 fs)
    ∧ ((create_logo fname node_info color_format bg cc tc move_to concept_text cfstyle
        cfsize font engine convert_tikz clean_up produced c1 fs).procs
      = if node_info.length = CHILD_NODES then
          [renderArgv engine convert_tikz fname]
            ++ (if clean_up = [] then [] else [findArgv clean_up])
        else [])
    ∧ ((create_logo fname node_info color_format bg cc tc move_to concept_text cfstyle
        cfsize font engine convert_tikz clean_up produced c1 fs).fs
      = if node_info.length = CHILD_NODES then
          (if move_to = "" then cleanedFS clean_up (renderedFS fname produced fs)
           else moveStep fname move_to (cleanedFS clean_up (renderedFS fname produced fs)))
        else fs) := by
  refine ⟨rfl, ?_, ?_⟩
  · by_cases h : node_info.length = CHILD_NODES <;> simp [create_logo, h]
  · by_cases h : node_info.length = CHILD_NODES <;> simp [create_logo, h]

/-- Claim C8: when `create_logo` fails its node-count validation, the
failure occurs before any side effect: no `.tex` file is written, no
external process is invoked, and the filesystem state is unchanged (no
file is deleted or moved). -/
theorem c8_validation_before_effects (fname : String) (node_info : List NodeInfo)
    (color_format : String) (bg cc tc : ColorDef) (move_to : String)
    (concept_text cfstyle cfsize font engine convert_tikz : String)
    (clean_up produced : List String) (exitCode : Int) (fs : FS)
    (hne : node_info.length ≠ CHILD_NODES) :
    (create_logo fname node_info color_format bg cc tc move_to concept_text cfstyle
        cfsize font engine convert_tikz clean_up produced exitCode fs)
      = { error := some (countErrMsg node_info.length), fs := fs,
          procs := [], texWritten := [] } := by
  simp [create_logo, hne]

/-- Witness for C8 at a concrete one-element node list. -/
theorem c8_validation_before_effects_witness :
    shortNodes.length ≠ CHILD_NODES
    ∧ (create_logo "logo" shortNodes "RGB" sBG sCC sTC "" "PySAL" "bfseries" "large"
        "M+ 1mn" "lualatex" default_convert_tikz ["aux", "log", "pdf"] [] 0 ⟨[], []⟩)
      = { error := some (countErrMsg shortNodes.length), fs := ⟨[], []⟩,
          procs := [], texWritten := [] } :=
  ⟨by decide, c8_validation_before_effects "logo" shortNodes "RGB" sBG sCC sTC "" "PySAL"
    "bfseries" "large" "M+ 1mn" "lualatex" default_convert_tikz ["aux", "log", "pdf"]
    [] 0 ⟨[], []⟩ (by decide)⟩

/-- Claim C9: the external TeX engine is always invoked with exactly
three arguments: when `convert_tikz` is any non-empty string the second
argument is `--shell-escape`, and when `convert_tikz` is the empty
string the second argument is `convert_tikz` itself, i.e. the empty
string (the flag position is not omitted); the invocation happens
exactly in the runs that pass validation. -/
theorem c9_engine_argv (fname : String) (node_info : List NodeInfo)
    (color_format : String) (bg cc tc : ColorDef) (move_to : String)
    (concept_text cfstyle cfsize font engine convert_tikz : String)
    (clean_up produced : List String) (exitCode : Int) (fs : FS) :
    ((create_logo fname node_info color_format bg cc tc move_to concept_text cfstyle
        cfsize font engine convert_tikz clean_up produced exitCode fs).procs.head?
      = if node_info.length = CHILD_NODES then
          some (renderArgv engine convert_tikz fname)
        else none)
    ∧ (renderArgv engine convert_tikz fname).length = 3
    ∧ (renderArgv engine convert_tikz fname)[1]?
        = some (if convert_tikz = "" then convert_tikz else "--shell-escape") := by
  refine ⟨?_, rfl, rfl⟩
  by_cases h : node_info.length = CHILD_NODES <;> simp [create_logo, h]

theorem header_ne_empty (font convert_tikz : String) (colors : List ColorDef)
    (cf : String) : (set_header_and_footer font convert_tikz colors cf).1 ≠ "" := by
  simp only [set_header_and_footer]
  apply append_ne_empty_left
  apply append_ne_empty_left
  apply append_ne_empty_left
  apply append_ne_empty_left
  apply append_ne_empty_left
  apply append_ne_empty_left
  decide

theorem header_contains_color {colors : List ColorDef} {c : ColorDef} (h : c ∈ colors)
    (font convert_tikz cf : String) :
    strContains (set_header_and_footer font convert_tikz colors cf).1 c.name := by
  simp only [set_header_and_footer]
  apply strContains_append_left
  apply strContains_append_right
  apply strContains_joinStrings (List.mem_map_of_mem _ h)
  apply strContains_append_left
  apply strContains_append_left
  apply strContains_append_left
  apply strContains_append_left
  apply strContains_append_left
  exact strContains_append_right _ (strContains_refl _)

/-- Claim C7: for every input, the assembled text blob is the
concatenation, in this fixed order, of: header, preamble, root
(concept) node, one child declaration per node descriptor iterated in
the caller-supplied input order, footer; it is non-empty and contains
the root label, every node label, and every supplied color name at
least once. Each node descriptor contributes exactly one child
declaration at its own input position, which is the reading of "every
node label once" (a label string may of course also occur inside
another label chosen equal to it). -/
theorem c7_template_assembly (node_info : List NodeInfo) (color_format : String)
    (bg cc tc : ColorDef) (concept_text cfstyle cfsize font convert_tikz : String) :
    (fcontent node_info color_format bg cc tc concept_text cfstyle cfsize font convert_tikz
      = (set_header_and_footer font convert_tikz (defined_colors node_info bg cc tc)
            color_format).1
        ++ (initialize_tikz bg.name cc.name tc.name
              (level_distances_and_sibling_angles CHILD_NODES GRANDCHILD_NODES)
            ++ create_concept cc.name concept_text cfstyle cfsize
            ++ joinStrings (childDecls node_info)
            ++ finalize_tikz)
        ++ (set_header_and_footer font convert_tikz (defined_colors node_info bg cc tc)
            color_format).2)
    ∧ fcontent node_info color_format bg cc tc concept_text cfstyle cfsize font convert_tikz
        ≠ ""
    ∧ strContains
        (fcontent node_info color_format bg cc tc concept_text cfstyle cfsize font
          convert_tikz) concept_text
    ∧ (∀ n ∈ node_info,
        strContains
          (fcontent node_info color_format bg cc tc concept_text cfstyle cfsize font
            convert_tikz) n.text)
    ∧ (∀ c ∈ defined_colors node_info bg cc tc,
        strContains
          (fcontent node_info color_format bg cc tc concept_text cfstyle cfsize font
            convert_tikz) c.name)
    ∧ (childDecls node_info).length = node_info.length
    ∧ (∀ i : Fin node_info.length,
        (childDecls node_info).get
            ⟨i.1, by simp [childDecls]⟩
          = create_child (node_info.get i).color.name GRANDCHILD_NODES
              (node_info.get i).text) := by
  have horder : fcontent node_info color_format bg cc tc concept_text cfstyle cfsize font
      convert_tikz
      = (set_header_and_footer font convert_tikz (defined_colors node_info bg cc tc)
            color_format).1
        ++ (initialize_tikz bg.name cc.name tc.name
              (level_distances_and_sibling_angles CHILD_NODES GRANDCHILD_NODES)
            ++ create_concept cc.name concept_text cfstyle cfsize
            ++ joinStrings (childDecls node_info)
            ++ finalize_tikz)
        ++ (set_header_and_footer font convert_tikz (defined_colors node_info bg cc tc)
            color_format).2 := by
    simp only [fcontent, foldl_append_eq_join, childDecls]
  refine ⟨horder, ?_, ?_, ?_, ?_, by simp [childDecls], ?_⟩
  · rw [horder]
    apply append_ne_empty_left
    apply append_ne_empty_left
    exact header_ne_empty font convert_tikz (defined_colors node_info bg cc tc) color_format
  · rw [horder]
    apply strContains_append_left
    apply strContains_append_right
    apply strContains_append_left
    apply strContains_append_left
    apply strContains_append_right
    show strContains (create_concept cc.name concept_text cfstyle cfsize) concept_text
    unfold create_concept
    apply strContains_append_left
    exact strContains_append_right _ (strContains_refl _)
  · intro n hn
    rw [horder]
    apply strContains_append_left
    apply strContains_append_right
    apply strContains_append_left
    apply strContains_append_right
    apply strContains_joinStrings (List.mem_map_of_mem _ hn)
    show strContains (create_child n.color.name GRANDCHILD_NODES n.text) n.text
    unfold create_child
    apply strContains_append_left
    apply strContains_append_left
    apply strContains_append_left
    exact strContains_append_right _ (strContains_refl _)
  · intro c hc
    rw [horder]
    apply strContains_append_left
    apply strContains_append_left
    exact header_contains_color hc font convert_tikz color_format
  · intro i
    simp [childDecls, List.get_eq_getElem]

/-- Counterexample to claim C1 as stated: with base name `"logo"` and
extension list `["aux"]`, the cleanup step of `create_logo` deletes the
pre-existing file `"other.aux"` even though its name does not start with
the base name — the `find` regex built on source lines 201-202 contains
no base-name component. -/
theorem c1_counterexample :
    (create_logo "logo" sampleNodes "RGB" sBG sCC sTC "" "PySAL" "bfseries" "large"
        "M+ 1mn" "lualatex" default_convert_tikz ["aux"] [] 0
        ⟨["other.aux"], []⟩).fs.cwd = ["logo.tex"]
    ∧ strStartsWith "other.aux" "logo" = false := by
  decide

/-- Claim C1 (amended): for every run of the cleanup step of
`create_logo` with a non-empty extension list, a file of the working
directory is deleted exactly when its extension is in the given list —
the base name plays no role, so files with other extensions are
untouched whatever their name, while files with a listed extension are
deleted even when their name does not start with the base name. -/
theorem c1_cleanup_by_extension_only (fname : String) (node_info : List NodeInfo)
    (color_format : String) (bg cc tc : ColorDef)
    (concept_text cfstyle cfsize font engine convert_tikz : String)
    (clean_up produced : List String) (exitCode : Int) (fs : FS)
    (h7 : node_info.length = CHILD_NODES) (hcl : clean_up ≠ [])
    (f : String) (hf : f ∈ (renderedFS fname produced fs).cwd) :
    f ∈ (create_logo fname node_info color_format bg cc tc "" concept_text cfstyle
        cfsize font engine convert_tikz clean_up produced exitCode fs).fs.cwd
      ↔ extDeletes clean_up f = false := by
  simp [create_logo, h7, cleanedFS, hcl, List.mem_filter, hf]

/-- Witness for the amended C1 at concrete inputs: the surviving file
`"logo.txt"` is kept precisely because its extension is not listed. -/
theorem c1_cleanup_by_extension_only_witness :
    sampleNodes.length = CHILD_NODES
    ∧ (["aux"] : List String) ≠ []
    ∧ "logo.txt" ∈ (renderedFS "logo" [] ⟨["other.aux", "logo.txt"], []⟩).cwd
    ∧ ("logo.txt" ∈ (create_logo "logo" sampleNodes "RGB" sBG sCC sTC "" "PySAL"
          "bfseries" "large" "M+ 1mn" "lualatex" default_convert_tikz ["aux"] [] 0
          ⟨["other.aux", "logo.txt"], []⟩).fs.cwd
        ↔ extDeletes ["aux"] "logo.txt" = false) :=
  ⟨by decide, by decide, by decide,
    c1_cleanup_by_extension_only "logo" sampleNodes "RGB" sBG sCC sTC "PySAL"
      "bfseries" "large" "M+ 1mn" "lualatex" default_convert_tikz ["aux"] [] 0
      ⟨["other.aux", "logo.txt"], []⟩ (by decide) (by decide) "logo.txt" (by decide)⟩

/-- Counterexample to claim C4 as stated: with the truthy destination
`"out"` (no trailing separator), the rename target built on source
line 209 is `currdir + "/" + "out" + name` — no separator is inserted
after `move_to` — so the prefix-matching file `logo.png` is renamed in
place to `outlogo.png` inside the working directory: nothing enters any
destination directory and the filename is not preserved. -/
theorem c4_counterexample :
    (create_logo "logo" sampleNodes "RGB" sBG sCC sTC "out" "PySAL" "bfseries"
        "large" "M+ 1mn" "lualatex" default_convert_tikz ["aux"] ["logo.png"] 0
        ⟨[], []⟩).fs.dest = []
    ∧ "outlogo.png" ∈ (create_logo "logo" sampleNodes "RGB" sBG sCC sTC "out" "PySAL"
        "bfseries" "large" "M+ 1mn" "lualatex" default_convert_tikz ["aux"]
        ["logo.png"] 0 ⟨[], []⟩).fs.cwd
    ∧ "logo.png" ∉ (create_logo "logo" sampleNodes "RGB" sBG sCC sTC "out" "PySAL"
        "bfseries" "large" "M+ 1mn" "lualatex" default_convert_tikz ["aux"]
        ["logo.png"] 0 ⟨[], []⟩).fs.cwd := by
  refine ⟨by decide, by decide, by decide⟩

/-- Claim C4 (amended): for every call to `create_logo` with a truthy
`move_to`, after cleanup every remaining file whose name starts with
the base name is renamed to the target path `move_to ++ name` (the
source inserts no separator): when `move_to` contains a path separator
the file leaves the working directory for that path — so a `move_to`
ending in a separator places it, filename preserved, in the directory
it names, and only such renamed paths enter the destination — while for
a `move_to` without a separator the file is merely renamed in place
inside the working directory and nothing enters any destination; files
whose names lack the prefix are untouched, and when `move_to` is falsy
no file is moved at all. -/
theorem c4_move_frame (fname : String) (node_info : List NodeInfo)
    (color_format : String) (bg cc tc : ColorDef) (move_to : String)
    (concept_text cfstyle cfsize font engine convert_tikz : String)
    (clean_up produced : List String) (exitCode : Int) (fs : FS)
    (h7 : node_info.length = CHILD_NODES) :
    (move_to ≠ "" →
      (hasSlash move_to = true →
        (∀ f ∈ (cleanedFS clean_up (renderedFS fname produced fs)).cwd,
          (strStartsWith f fname = true →
            f ∉ (create_logo fname node_info color_format bg cc tc move_to concept_text
                cfstyle cfsize font engine convert_tikz clean_up produced exitCode
                fs).fs.cwd
            ∧ (move_to ++ f) ∈ (create_logo fname node_info color_format bg cc tc
                move_to concept_text cfstyle cfsize font engine convert_tikz clean_up
                produced exitCode fs).fs.dest)
          ∧ (strStartsWith f fname = false →
            f ∈ (create_logo fname node_info color_format bg cc tc move_to concept_text
                cfstyle cfsize font engine convert_tikz clean_up produced exitCode
                fs).fs.cwd))
        ∧ ∀ g ∈ (create_logo fname node_info color_format bg cc tc move_to concept_text
              cfstyle cfsize font engine convert_tikz clean_up produced exitCode
              fs).fs.dest,
            g ∈ fs.dest
            ∨ ∃ f ∈ (cleanedFS clean_up (renderedFS fname produced fs)).cwd,
                strStartsWith f fname = true ∧ g = move_to ++ f)
      ∧ (hasSlash move_to = false →
        (create_logo fname node_info color_format bg cc tc move_to concept_text
            cfstyle cfsize font engine convert_tikz clean_up produced exitCode
            fs).fs.dest = fs.dest
        ∧ ∀ f ∈ (cleanedFS clean_up (renderedFS fname produced fs)).cwd,
          (strStartsWith f fname = true →
            (move_to ++ f) ∈ (create_logo fname node_info color_format bg cc tc
                move_to concept_text cfstyle cfsize font engine convert_tikz clean_up
                produced exitCode fs).fs.cwd)
          ∧ (strStartsWith f fname = false →
            f ∈ (create_logo fname node_info color_format bg cc tc move_to concept_text
                cfstyle cfsize font engine convert_tikz clean_up produced exitCode
                fs).fs.cwd)))
    ∧ (move_to = "" →
      (create_logo fname node_info color_format bg cc tc move_to concept_text cfstyle
          cfsize font engine convert_tikz clean_up produced exitCode fs).fs
        = cleanedFS clean_up (renderedFS fname produced fs)) := by
  have hdest : (cleanedFS clean_up (renderedFS fname produced fs)).dest = fs.dest := by
    unfold cleanedFS renderedFS
    split <;> rfl
  constructor
  · intro hmv
    have hfs : (create_logo fname node_info color_format bg cc tc move_to concept_text
        cfstyle cfsize font engine convert_tikz clean_up produced exitCode fs).fs
        = moveStep fname move_to (cleanedFS clean_up (renderedFS fname produced fs)) := by
      simp [create_logo, h7, hmv]
    rw [hfs]
    constructor
    · intro hsl
      constructor
      · intro f hf
        constructor
        · intro hpre
          constructor
          · simp [moveStep, hsl, List.mem_filter, hpre]
          · simp only [moveStep, hsl, if_true]
            rw [mem_addFiles]
            exact Or.inr (List.mem_map_of_mem _ (List.mem_filter.mpr ⟨hf, hpre⟩))
        · intro hnpre
          simp [moveStep, hsl, List.mem_filter, hf, hnpre]
      · intro g hg
        simp only [moveStep, hsl, if_true] at hg
        rcases mem_addFiles.mp hg with h | h
        · rw [hdest] at h
          exact Or.inl h
        · obtain ⟨a, ha, hag⟩ := List.mem_map.mp h
          obtain ⟨ha1, ha2⟩ := List.mem_filter.mp ha
          exact Or.inr ⟨a, ha1, ha2, hag.symm⟩
    · intro hsl
      constructor
      · simp [moveStep, hsl, hdest]
      · intro f hf
        constructor
        · intro hpre
          simp only [moveStep, hsl, Bool.false_eq_true, if_false]
          rw [mem_addFiles]
          exact Or.inr (List.mem_map_of_mem _ (List.mem_filter.mpr ⟨hf, hpre⟩))
        · intro hnpre
          simp only [moveStep, hsl, Bool.false_eq_true, if_false]
          rw [mem_addFiles]
          exact Or.inl (List.mem_filter.mpr ⟨hf, by rw [hnpre]; rfl⟩)
  · intro hmv
    simp [create_logo, h7, hmv]

/-- Witness for the amended C4 at concrete inputs with the destination
`"out/"`, which does end in a path separator. -/
theorem c4_move_frame_witness :
    sampleNodes.length = CHILD_NODES
    ∧ ((("out/" : String) ≠ "" →
      (hasSlash "out/" = true →
        (∀ f ∈ (cleanedFS ["aux", "log", "pdf"]
              (renderedFS "logo" (stdProduced "logo") ⟨["notes.txt"], []⟩)).cwd,
          (strStartsWith f "logo" = true →
            f ∉ (create_logo "logo" sampleNodes "RGB" sBG sCC sTC "out/" "PySAL"
                "bfseries" "large" "M+ 1mn" "lualatex" default_convert_tikz
                ["aux", "log", "pdf"] (stdProduced "logo") 0 ⟨["notes.txt"], []⟩).fs.cwd
            ∧ ("out/" ++ f) ∈ (create_logo "logo" sampleNodes "RGB" sBG sCC sTC "out/"
                "PySAL" "bfseries" "large" "M+ 1mn" "lualatex" default_convert_tikz
                ["aux", "log", "pdf"] (stdProduced "logo") 0 ⟨["notes.txt"], []⟩).fs.dest)
          ∧ (strStartsWith f "logo" = false →
            f ∈ (create_logo "logo" sampleNodes "RGB" sBG sCC sTC "out/" "PySAL"
                "bfseries" "large" "M+ 1mn" "lualatex" default_convert_tikz
                ["aux", "log", "pdf"] (stdProduced "logo") 0 ⟨["notes.txt"], []⟩).fs.cwd))
        ∧ ∀ g ∈ (create_logo "logo" sampleNodes "RGB" sBG sCC sTC "out/" "PySAL"
              "bfseries" "large" "M+ 1mn" "lualatex" default_convert_tikz
              ["aux", "log", "pdf"] (stdProduced "logo") 0 ⟨["notes.txt"], []⟩).fs.dest,
            g ∈ FS.dest ⟨["notes.txt"], []⟩
            ∨ ∃ f ∈ (cleanedFS ["aux", "log", "pdf"]
                  (renderedFS "logo" (stdProduced "logo") ⟨["notes.txt"], []⟩)).cwd,
                strStartsWith f "logo" = true ∧ g = "out/" ++ f)
      ∧ (hasSlash "out/" = false →
        (create_logo "logo" sampleNodes "RGB" sBG sCC sTC "out/" "PySAL" "bfseries"
            "large" "M+ 1mn" "lualatex" default_convert_tikz ["aux", "log", "pdf"]
            (stdProduced "logo") 0 ⟨["notes.txt"], []⟩).fs.dest
          = FS.dest ⟨["notes.txt"], []⟩
        ∧ ∀ f ∈ (cleanedFS ["aux", "log", "pdf"]
              (renderedFS "logo" (stdProduced "logo") ⟨["notes.txt"], []⟩)).cwd,
          (strStartsWith f "logo" = true →
            ("out/" ++ f) ∈ (create_logo "logo" sampleNodes "RGB" sBG sCC sTC "out/"
                "PySAL" "bfseries" "large" "M+ 1mn" "lualatex" default_convert_tikz
                ["aux", "log", "pdf"] (stdProduced "logo") 0 ⟨["notes.txt"], []⟩).fs.cwd)
          ∧ (strStartsWith f "logo" = false →
            f ∈ (create_logo "logo" sampleNodes "RGB" sBG sCC sTC "out/" "PySAL"
                "bfseries" "large" "M+ 1mn" "lualatex" default_convert_tikz
                ["aux", "log", "pdf"] (stdProduced "logo") 0 ⟨["notes.txt"], []⟩).fs.cwd)))
    ∧ (("out/" : String) = "" →
      (create_logo "logo" sampleNodes "RGB" sBG sCC sTC "out/" "PySAL" "bfseries"
          "large" "M+ 1mn" "lualatex" default_convert_tikz ["aux", "log", "pdf"]
          (stdProduced "logo") 0 ⟨["notes.txt"], []⟩).fs
        = cleanedFS ["aux", "log", "pdf"]
            (renderedFS "logo" (stdProduced "logo") ⟨["notes.txt"], []⟩))) :=
  ⟨by decide,
    c4_move_frame "logo" sampleNodes "RGB" sBG sCC sTC "out/" "PySAL" "bfseries"
      "large" "M+ 1mn" "lualatex" default_convert_tikz ["aux", "log", "pdf"]
      (stdProduced "logo") 0 ⟨["notes.txt"], []⟩ (by decide)⟩

/-- Witness for C7 at a concrete theme: the assembled blob contains the
root label and every node label. -/
theorem c7_template_assembly_witness :
    strContains (fcontent sampleNodes "RGB" sBG sCC sTC "PySAL" "bfseries" "large"
      "M+ 1mn" default_convert_tikz) "PySAL"
    ∧ (∀ n ∈ sampleNodes,
        strContains (fcontent sampleNodes "RGB" sBG sCC sTC "PySAL" "bfseries" "large"
          "M+ 1mn" default_convert_tikz) n.text)
    ∧ (∀ c ∈ defined_colors sampleNodes sBG sCC sTC,
        strContains (fcontent sampleNodes "RGB" sBG sCC sTC "PySAL" "bfseries" "large"
          "M+ 1mn" default_convert_tikz) c.name) :=
  ⟨(c7_template_assembly sampleNodes "RGB" sBG sCC sTC "PySAL" "bfseries" "large"
      "M+ 1mn" default_convert_tikz).2.2.1,
   (c7_template_assembly sampleNodes "RGB" sBG sCC sTC "PySAL" "bfseries" "large"
      "M+ 1mn" default_convert_tikz).2.2.2.1,
   (c7_template_assembly sampleNodes "RGB" sBG sCC sTC "PySAL" "bfseries" "large"
      "M+ 1mn" default_convert_tikz).2.2.2.2.1⟩

theorem strStartsWith_eq_false_of {s pre : String} (h : ¬ (pre.data <+: s.data)) :
    strStartsWith s pre = false := by
  rw [Bool.eq_false_iff]
  intro htrue
  exact h (strStartsWith_iff.mp htrue)

theorem ne_of_append_ne {b c : String} (a : String) (h : b ≠ c) : a ++ b ≠ a ++ c :=
  fun he => h (string_append_right_inj.mp he)

theorem globDeletes_dot_ext (x e : String) : globDeletes x (x ++ ("." ++ e)) = true := by
  unfold globDeletes
  rw [← String.append_assoc]
  exact strStartsWith_append_self _ _

theorem globDeletes_underscore (x r : String) : globDeletes x (x ++ ("_" ++ r)) = false := by
  unfold globDeletes
  rw [strStartsWith_append_cancel]
  apply strStartsWith_eq_false_of
  intro hcon
  obtain ⟨t, ht⟩ := hcon
  rw [String.data_append] at ht
  have ht2 : '.' :: t = '_' :: ("" ++ r).data := ht
  injection ht2 with h1 h2
  exact absurd h1 (by decide)

theorem globDeletes_ico (x : String) (r : Nat) : globDeletes x (icoName x r) = false := by
  unfold icoName
  rw [String.append_assoc, String.append_assoc]
  exact globDeletes_underscore x (toString r ++ ".ico")

theorem strStartsWith_icoName (x : String) (r : Nat) : strStartsWith (icoName x r) x = true := by
  unfold icoName
  rw [String.append_assoc, String.append_assoc]
  exact strStartsWith_append_self _ _

theorem extDeletes_default_tex (x : String) :
    extDeletes ["aux", "log", "pdf"] (x ++ ".tex") = false := by
  show (strEndsWith (x ++ ".tex") ("." ++ "aux")
    || (strEndsWith (x ++ ".tex") ("." ++ "log")
    || (strEndsWith (x ++ ".tex") ("." ++ "pdf") || false))) = false
  rw [strEndsWith_append _ _ _ (by decide), strEndsWith_append _ _ _ (by decide),
    strEndsWith_append _ _ _ (by decide)]
  decide

theorem extDeletes_default_png (x : String) :
    extDeletes ["aux", "log", "pdf"] (x ++ ".png") = false := by
  show (strEndsWith (x ++ ".png") ("." ++ "aux")
    || (strEndsWith (x ++ ".png") ("." ++ "log")
    || (strEndsWith (x ++ ".png") ("." ++ "pdf") || false))) = false
  rw [strEndsWith_append _ _ _ (by decide), strEndsWith_append _ _ _ (by decide),
    strEndsWith_append _ _ _ (by decide)]
  decide

theorem extDeletes_default_aux (x : String) :
    extDeletes ["aux", "log", "pdf"] (x ++ ".aux") = true := by
  show (strEndsWith (x ++ ".aux") ("." ++ "aux")
    || (strEndsWith (x ++ ".aux") ("." ++ "log")
    || (strEndsWith (x ++ ".aux") ("." ++ "pdf") || false))) = true
  rw [strEndsWith_append _ _ _ (by decide)]
  simp only [Bool.or_eq_true]
  exact Or.inl (by decide)

theorem extDeletes_default_log (x : String) :
    extDeletes ["aux", "log", "pdf"] (x ++ ".log") = true := by
  show (strEndsWith (x ++ ".log") ("." ++ "aux")
    || (strEndsWith (x ++ ".log") ("." ++ "log")
    || (strEndsWith (x ++ ".log") ("." ++ "pdf") || false))) = true
  rw [strEndsWith_append _ _ _ (by decide), strEndsWith_append _ _ _ (by decide)]
  simp only [Bool.or_eq_true]
  exact Or.inr (Or.inl (by decide))

theorem extDeletes_default_pdf (x : String) :
    extDeletes ["aux", "log", "pdf"] (x ++ ".pdf") = true := by
  show (strEndsWith (x ++ ".pdf") ("." ++ "aux")
    || (strEndsWith (x ++ ".pdf") ("." ++ "log")
    || (strEndsWith (x ++ ".pdf") ("." ++ "pdf") || false))) = true
  rw [strEndsWith_append _ _ _ (by decide), strEndsWith_append _ _ _ (by decide),
    strEndsWith_append _ _ _ (by decide)]
  decide

set_option maxRecDepth 8192

/-- Counterexample to claim C5 as stated: `create_favicon` does not
invoke the base pipeline with an empty root label. The `.tex` content
it writes when called with `concept_text = "PySAL"` is assembled with
the label `"PySAL"`, and that content differs from the one assembled
with the empty label, so the inner invocation's root label was not
empty. -/
theorem c5_counterexample :
    (create_favicon "p" sampleNodes "RGB" sBG sCC sTC "" "PySAL" 32 true [] 0
        ⟨[], []⟩).texWritten
      = [(texName (derivedName "p"),
          fcontent sampleNodes "RGB" sBG sCC sTC "PySAL" "bfseries" "large" "M+ 1mn"
            default_convert_tikz)]
    ∧ fcontent sampleNodes "RGB" sBG sCC sTC "PySAL" "bfseries" "large" "M+ 1mn"
        default_convert_tikz
      ≠ fcontent sampleNodes "RGB" sBG sCC sTC "" "bfseries" "large" "M+ 1mn"
        default_convert_tikz := by
  constructor
  · decide
  · decide

/-- Claim C5 (amended): for every call to `create_favicon`, the derived
base name equals the input base name with the fixed suffix `"_favicon"`
appended, and the base render pipeline (`create_logo`) is invoked on
that derived name with the caller-supplied `concept_text` forwarded
unchanged — no empty root label is forced, so text is suppressed only
when the caller itself passes an empty label, as the documented example
does. -/
theorem c5_derived_name_and_label (fname : String) (node_info : List NodeInfo)
    (color_format : String) (bg cc tc : ColorDef) (move_to concept_text : String)
    (resolution : Nat) (clean_up : Bool) (produced : List String) (exitCode : Int)
    (fs : FS) (h7 : node_info.length = CHILD_NODES) :
    derivedName fname = fname ++ "_favicon"
    ∧ (create_favicon fname node_info color_format bg cc tc move_to concept_text
        resolution clean_up produced exitCode fs).texWritten
      = [(texName (derivedName fname),
          fcontent node_info color_format bg cc tc concept_text "bfseries" "large"
            "M+ 1mn" default_convert_tikz)] := by
  constructor
  · unfold derivedName
    rw [String.append_assoc]
    exact congrArg (fun s => fname ++ s) (by decide)
  · simp [create_favicon, create_logo, h7]

/-- Witness for the amended C5 at concrete inputs. -/
theorem c5_derived_name_and_label_witness :
    sampleNodes.length = CHILD_NODES
    ∧ (derivedName "q" = "q" ++ "_favicon"
      ∧ (create_favicon "q" sampleNodes "RGB" sBG sCC sTC "" "" 16 false [] 0
          ⟨[], []⟩).texWritten
        = [(texName (derivedName "q"),
            fcontent sampleNodes "RGB" sBG sCC sTC "" "bfseries" "large" "M+ 1mn"
              default_convert_tikz)]) :=
  ⟨by decide,
    c5_derived_name_and_label "q" sampleNodes "RGB" sBG sCC sTC "" "" 16 false [] 0
      ⟨[], []⟩ (by decide)⟩

/-- Counterexample to claim C10 as stated: with the truthy `move_to`
value `"out"` (no path separator), the inner `create_logo`'s move step
does not relocate the derived-prefix files to any destination — the
rename target `currdir + "/" + "out" + name` (source line 209, no
separator inserted) is again a direct entry of the working directory,
so `<derived>.png` is merely renamed in place to `out<derived>.png` and
nothing reaches a destination directory. -/
theorem c10_counterexample :
    (create_logo (derivedName "p") sampleNodes "RGB" sBG sCC sTC "out" "" "bfseries"
        "large" "M+ 1mn" "lualatex" default_convert_tikz ["aux", "log", "pdf"]
        (stdProduced (derivedName "p")) 0 ⟨[], []⟩).fs.dest = []
    ∧ ("out" ++ (derivedName "p" ++ ".png"))
      ∈ (create_logo (derivedName "p") sampleNodes "RGB" sBG sCC sTC "out" ""
          "bfseries" "large" "M+ 1mn" "lualatex" default_convert_tikz
          ["aux", "log", "pdf"] (stdProduced (derivedName "p")) 0 ⟨[], []⟩).fs.cwd
    ∧ (derivedName "p" ++ ".png")
      ∉ (create_logo (derivedName "p") sampleNodes "RGB" sBG sCC sTC "out" ""
          "bfseries" "large" "M+ 1mn" "lualatex" default_convert_tikz
          ["aux", "log", "pdf"] (stdProduced (derivedName "p")) 0 ⟨[], []⟩).fs.cwd := by
  refine ⟨by decide, by decide, by decide⟩

/-- Claim C10 (amended): for every call to `create_favicon` with a
truthy `move_to`, the destination argument is forwarded to the inner
`create_logo` call, whose move step renames every file sharing the
derived base name to the target path `move_to ++ name` before the
image-resize step runs; when `move_to` contains a path separator (as a
destination directory written `"out/"` does), the rendered
`<derived>.png` thereby leaves the working directory for that path, and
the resize step is then invoked with input path `<derived>.png`,
resolved in the current working directory, where it no longer
resides. -/
theorem c10_moved_png_breaks_resize (fname : String) (node_info : List NodeInfo)
    (color_format : String) (bg cc tc : ColorDef) (move_to concept_text : String)
    (resolution : Nat) (clean_up : Bool) (exitCode : Int) (fs : FS)
    (h7 : node_info.length = CHILD_NODES) (hmv : move_to ≠ "")
    (hsl : hasSlash move_to = true) :
    (derivedName fname ++ ".png")
      ∉ (create_logo (derivedName fname) node_info color_format bg cc tc move_to
          concept_text "bfseries" "large" "M+ 1mn" "lualatex" default_convert_tikz
          ["aux", "log", "pdf"] (stdProduced (derivedName fname)) exitCode fs).fs.cwd
    ∧ (move_to ++ (derivedName fname ++ ".png"))
      ∈ (create_logo (derivedName fname) node_info color_format bg cc tc move_to
          concept_text "bfseries" "large" "M+ 1mn" "lualatex" default_convert_tikz
          ["aux", "log", "pdf"] (stdProduced (derivedName fname)) exitCode fs).fs.dest
    ∧ (convertArgv (derivedName fname) resolution)[1]?
        = some (derivedName fname ++ ".png")
    ∧ convertArgv (derivedName fname) resolution
        ∈ (create_favicon fname node_info color_format bg cc tc move_to concept_text
            resolution clean_up (stdProduced (derivedName fname)) exitCode fs).procs := by
  have hfs : (create_logo (derivedName fname) node_info color_format bg cc tc move_to
      concept_text "bfseries" "large" "M+ 1mn" "lualatex" default_convert_tikz
      ["aux", "log", "pdf"] (stdProduced (derivedName fname)) exitCode fs).fs
      = moveStep (derivedName fname) move_to
          (cleanedFS ["aux", "log", "pdf"]
            (renderedFS (derivedName fname) (stdProduced (derivedName fname)) fs)) := by
    simp [create_logo, h7, hmv]
  have hpre : strStartsWith (derivedName fname ++ ".png") (derivedName fname) = true :=
    strStartsWith_append_self _ _
  have hmid : (derivedName fname ++ ".png")
      ∈ (cleanedFS ["aux", "log", "pdf"]
          (renderedFS (derivedName fname) (stdProduced (derivedName fname)) fs)).cwd := by
    have hmem : (derivedName fname ++ ".png")
        ∈ (renderedFS (derivedName fname) (stdProduced (derivedName fname)) fs).cwd := by
      unfold renderedFS
      rw [mem_addFiles]
      exact Or.inr (by simp [stdProduced])
    unfold cleanedFS
    rw [if_neg (by decide)]
    exact List.mem_filter.mpr ⟨hmem, by rw [extDeletes_default_png]; rfl⟩
  refine ⟨?_, ?_, rfl, ?_⟩
  · rw [hfs]
    simp [moveStep, hsl, List.mem_filter, hpre]
  · rw [hfs]
    simp only [moveStep, hsl, if_true]
    rw [mem_addFiles]
    exact Or.inr (List.mem_map_of_mem _ (List.mem_filter.mpr ⟨hmid, hpre⟩))
  · simp [create_favicon, create_logo, h7]

/-- Witness for the amended C10 at concrete inputs with the destination
`"out/"`, which contains a path separator. -/
theorem c10_moved_png_breaks_resize_witness :
    sampleNodes.length = CHILD_NODES
    ∧ ("out/" : String) ≠ ""
    ∧ hasSlash "out/" = true
    ∧ ((derivedName "p" ++ ".png")
      ∉ (create_logo (derivedName "p") sampleNodes "RGB" sBG sCC sTC "out/"
          "" "bfseries" "large" "M+ 1mn" "lualatex" default_convert_tikz
          ["aux", "log", "pdf"] (stdProduced (derivedName "p")) 0
          ⟨["notes.txt"], []⟩).fs.cwd
    ∧ ("out/" ++ (derivedName "p" ++ ".png"))
      ∈ (create_logo (derivedName "p") sampleNodes "RGB" sBG sCC sTC "out/"
          "" "bfseries" "large" "M+ 1mn" "lualatex" default_convert_tikz
          ["aux", "log", "pdf"] (stdProduced (derivedName "p")) 0
          ⟨["notes.txt"], []⟩).fs.dest
    ∧ (convertArgv (derivedName "p") 32)[1]? = some (derivedName "p" ++ ".png")
    ∧ convertArgv (derivedName "p") 32
        ∈ (create_favicon "p" sampleNodes "RGB" sBG sCC sTC "out/" "" 32 true
            (stdProduced (derivedName "p")) 0 ⟨["notes.txt"], []⟩).procs) :=
  ⟨by decide, by decide, by decide,
    c10_moved_png_breaks_resize "p" sampleNodes "RGB" sBG sCC sTC "out/" "" 32 true 0
      ⟨["notes.txt"], []⟩ (by decide) (by decide) (by decide)⟩

theorem globDeletes_tex (x : String) : globDeletes x (x ++ ".tex") = true :=
  globDeletes_dot_ext x "tex"

theorem globDeletes_png (x : String) : globDeletes x (x ++ ".png") = true :=
  globDeletes_dot_ext x "png"

/-- Counterexample to claim C6 as stated: with resolution 32 and
cleanup enabled but a truthy `move_to`, the derived-prefix family is
relocated by the inner `create_logo` before the resize step, the resize
input is missing so no icon file is produced, and the working directory
retains no file at all sharing the derived prefix — in particular not
exactly one `<base>_favicon_32.ico`. -/
theorem c6_counterexample :
    ((create_favicon "p" sampleNodes "RGB" sBG sCC sTC "out/" "" 32 true
        (stdProduced (derivedName "p")) 0 ⟨[], []⟩).fs.cwd.filter
      (fun f => strStartsWith f (derivedName "p"))) = []
    ∧ icoName (derivedName "p") 32
        ∉ (create_favicon "p" sampleNodes "RGB" sBG sCC sTC "out/" "" 32 true
            (stdProduced (derivedName "p")) 0 ⟨[], []⟩).fs.cwd := by
  constructor
  · decide
  · decide

/-- Claim C6 (amended): for every call to `create_favicon` with
resolution 32, cleanup enabled and a falsy `move_to`, starting from a
working directory holding no file that shares the derived prefix and
with the render producing the standard artifacts, after the pipeline
exactly one file sharing the derived prefix remains in the working
directory, namely `<base>_favicon_32.ico`; every intermediate file
sharing the derived base name is absent. -/
theorem c6_favicon_scenario (fname : String) (node_info : List NodeInfo)
    (color_format : String) (bg cc tc : ColorDef) (concept_text : String)
    (exitCode : Int) (fs : FS)
    (h7 : node_info.length = CHILD_NODES)
    (hcwd : ∀ f ∈ fs.cwd, strStartsWith f (derivedName fname) = false) :
    ((create_favicon fname node_info color_format bg cc tc "" concept_text 32 true
        (stdProduced (derivedName fname)) exitCode fs).fs.cwd.filter
      (fun f => strStartsWith f (derivedName fname)))
      = [icoName (derivedName fname) 32] := by
  set d := derivedName fname with hd
  have hnotin : ∀ g : String, strStartsWith g d = true → g ∉ fs.cwd := by
    intro g hg hm
    rw [hcwd g hm] at hg
    exact Bool.false_ne_true hg
  have ptex : strStartsWith (d ++ ".tex") d = true := strStartsWith_append_self _ _
  have paux : strStartsWith (d ++ ".aux") d = true := strStartsWith_append_self _ _
  have plog : strStartsWith (d ++ ".log") d = true := strStartsWith_append_self _ _
  have ppdf : strStartsWith (d ++ ".pdf") d = true := strStartsWith_append_self _ _
  have ppng : strStartsWith (d ++ ".png") d = true := strStartsWith_append_self _ _
  have pico : strStartsWith (icoName d 32) d = true := strStartsWith_icoName d 32
  have ntex : (d ++ ".tex") ∉ fs.cwd := hnotin _ ptex
  have naux : (d ++ ".aux") ∉ fs.cwd ++ [d ++ ".tex"] := by
    simp only [List.mem_append, List.mem_singleton]
    rintro (hm | heq)
    · exact hnotin _ paux hm
    · exact ne_of_append_ne d (by decide) heq
  have nlog : (d ++ ".log") ∉ (fs.cwd ++ [d ++ ".tex"]) ++ [d ++ ".aux"] := by
    simp only [List.mem_append, List.mem_singleton]
    rintro ((hm | h1) | h2)
    · exact hnotin _ plog hm
    · exact ne_of_append_ne d (by decide) h1
    · exact ne_of_append_ne d (by decide) h2
  have npdf : (d ++ ".pdf")
      ∉ ((fs.cwd ++ [d ++ ".tex"]) ++ [d ++ ".aux"]) ++ [d ++ ".log"] := by
    simp only [List.mem_append, List.mem_singleton]
    rintro (((hm | h1) | h2) | h3)
    · exact hnotin _ ppdf hm
    · exact ne_of_append_ne d (by decide) h1
    · exact ne_of_append_ne d (by decide) h2
    · exact ne_of_append_ne d (by decide) h3
  have npng : (d ++ ".png")
      ∉ (((fs.cwd ++ [d ++ ".tex"]) ++ [d ++ ".aux"]) ++ [d ++ ".log"]) ++ [d ++ ".pdf"] := by
    simp only [List.mem_append, List.mem_singleton]
    rintro ((((hm | h1) | h2) | h3) | h4)
    · exact hnotin _ ppng hm
    · exact ne_of_append_ne d (by decide) h1
    · exact ne_of_append_ne d (by decide) h2
    · exact ne_of_append_ne d (by decide) h3
    · exact ne_of_append_ne d (by decide) h4
  have hrend : (renderedFS d (stdProduced d) fs).cwd
      = fs.cwd ++ [d ++ ".tex", d ++ ".aux", d ++ ".log", d ++ ".pdf", d ++ ".png"] := by
    unfold renderedFS stdProduced addFiles texName
    simp only [List.foldl_cons, List.foldl_nil]
    rw [addFile_of_not_mem ntex, addFile_of_not_mem naux, addFile_of_not_mem nlog,
      addFile_of_not_mem npdf, addFile_of_not_mem npng]
    simp [List.append_assoc]
  have hclean : (cleanedFS ["aux", "log", "pdf"] (renderedFS d (stdProduced d) fs)).cwd
      = fs.cwd.filter (fun f => !(extDeletes ["aux", "log", "pdf"] f))
        ++ [d ++ ".tex", d ++ ".png"] := by
    unfold cleanedFS
    rw [if_neg (by decide)]
    show (renderedFS d (stdProduced d) fs).cwd.filter _ = _
    rw [hrend, List.filter_append]
    congr 1
    simp [extDeletes_default_tex, extDeletes_default_aux, extDeletes_default_log,
      extDeletes_default_pdf, extDeletes_default_png]
  have hico_ne_tex : icoName d 32 ≠ d ++ ".tex" := by
    unfold icoName
    rw [String.append_assoc, String.append_assoc]
    exact ne_of_append_ne d (by decide)
  have hico_ne_png : icoName d 32 ≠ d ++ ".png" := by
    unfold icoName
    rw [String.append_assoc, String.append_assoc]
    exact ne_of_append_ne d (by decide)
  have hico_not : icoName d 32
      ∉ (cleanedFS ["aux", "log", "pdf"] (renderedFS d (stdProduced d) fs)).cwd := by
    rw [hclean]
    simp only [List.mem_append, List.mem_cons, List.mem_singleton, List.not_mem_nil]
    rintro (hm | heq1 | heq2)
    · exact hnotin _ pico (List.mem_filter.mp hm).1
    · exact hico_ne_tex heq1
    · rcases heq2 with heq2 | hfalse
      · exact hico_ne_png heq2
      · exact hfalse
  have hpng_mem : (d ++ ".png")
      ∈ (cleanedFS ["aux", "log", "pdf"] (renderedFS d (stdProduced d) fs)).cwd := by
    rw [hclean]
    simp
  have hconv : (convertFS d 32
      (cleanedFS ["aux", "log", "pdf"] (renderedFS d (stdProduced d) fs))).cwd
      = (cleanedFS ["aux", "log", "pdf"] (renderedFS d (stdProduced d) fs)).cwd
        ++ [icoName d 32] := by
    unfold convertFS
    rw [if_pos hpng_mem]
    exact addFile_of_not_mem hico_not
  have hstep : (create_favicon fname node_info color_format bg cc tc "" concept_text 32
      true (stdProduced d) exitCode fs).fs
      = favCleanedFS d (convertFS d 32
          (cleanedFS ["aux", "log", "pdf"] (renderedFS d (stdProduced d) fs))) := by
    simp [create_favicon, create_logo, h7, hd]
  rw [hstep]
  unfold favCleanedFS
  show ((convertFS d 32 (cleanedFS ["aux", "log", "pdf"]
      (renderedFS d (stdProduced d) fs))).cwd.filter _).filter _ = _
  rw [hconv, hclean, List.filter_append, List.filter_append]
  have hq1 : ((fs.cwd.filter (fun f => !(extDeletes ["aux", "log", "pdf"] f))).filter
      (fun f => !(globDeletes d f))).filter (fun f => strStartsWith f d) = [] := by
    rw [List.filter_eq_nil_iff]
    intro a ha
    have hmem : a ∈ fs.cwd := (List.mem_filter.mp (List.mem_filter.mp ha).1).1
    rw [hcwd a hmem]
    simp
  have hq2 : (([d ++ ".tex", d ++ ".png"].filter (fun f => !(globDeletes d f))).filter
      (fun f => strStartsWith f d)) = [] := by
    simp [globDeletes_tex, globDeletes_png]
  have hq3 : (([icoName d 32].filter (fun f => !(globDeletes d f))).filter
      (fun f => strStartsWith f d)) = [icoName d 32] := by
    simp [globDeletes_ico, pico]
  rw [List.filter_append, List.filter_append, hq1, hq2, hq3]
  rfl

/-- Witness for the amended C6 at concrete inputs: the only
prefix-sharing survivor is `pysal_logo_favicon_32.ico`. -/
theorem c6_favicon_scenario_witness :
    sampleNodes.length = CHILD_NODES
    ∧ (∀ f ∈ FS.cwd ⟨["notes.txt"], []⟩,
        strStartsWith f (derivedName "pysal_logo") = false)
    ∧ ((create_favicon "pysal_logo" sampleNodes "RGB" sBG sCC sTC "" "" 32 true
        (stdProduced (derivedName "pysal_logo")) 0 ⟨["notes.txt"], []⟩).fs.cwd.filter
      (fun f => strStartsWith f (derivedName "pysal_logo")))
      = [icoName (derivedName "pysal_logo") 32] :=
  ⟨by decide, by decide,
    c6_favicon_scenario "pysal_logo" sampleNodes "RGB" sBG sCC sTC "" 0
      ⟨["notes.txt"], []⟩ (by decide) (by decide)⟩

end Logo
